import Mathlib

/-!
# Verification of the idempotent-dispatch / single-flight coordination core

Shallow embedding of `items/views.py` and `items/tasks.py` from the
`large-items` repository.

The shared key-value store (Django cache / Redis, both backed by the same
Redis instance in this deployment) is modelled as a function from string
keys to optional entries carrying a value and an optional absolute expiry
time.  Time is an explicit `Nat` parameter (seconds); an entry whose expiry
is `none` never expires, mirroring a Redis key written by `SETNX` with no
`EXPIRE`.  Expired keys behave exactly like absent keys, which matches both
Django's cache `timeout` semantics and Redis lazy expiry as observed through
`GET` / `EXISTS` / `SETNX`.
-/

/-- One stored entry: a string value plus an optional absolute expiry time
(`none` = the entry never expires). -/
structure Entry where
  value : String
  expiry : Option Nat
deriving Repr, DecidableEq

/-- The shared key-value store (Django cache / Redis). -/
def KVStore : Type := String → Option Entry

/-- The empty store. -/
def KVStore.empty : KVStore := fun _ => none

/-- Is this entry still live at time `t`? -/
def Entry.alive (e : Entry) (t : Nat) : Bool :=
  match e.expiry with
  | none => true
  | some exp => decide (t < exp)

/-- Read the raw live entry at key `k` at time `t`; an expired entry reads
as absent. -/
def KVStore.read (s : KVStore) (k : String) (t : Nat) : Option Entry :=
  match s k with
  | none => none
  | some e => if e.alive t then some e else none

/-- Model of `cache.get(k)` / `GET k`: the live value at key `k`, if any. -/
def KVStore.get (s : KVStore) (k : String) (t : Nat) : Option String :=
  (s.read k t).map Entry.value

/-- Model of `redis_client.exists(k)` / `EXISTS k`. -/
def KVStore.keyExists (s : KVStore) (k : String) (t : Nat) : Bool :=
  (s.read k t).isSome

/-- Model of `cache.set(k, v, timeout)`: unconditionally store `v` at `k`, expiring
`timeout` seconds from now. -/
def KVStore.set (s : KVStore) (k v : String) (timeout t : Nat) : KVStore :=
  fun q => if q = k then some ⟨v, some (t + timeout)⟩ else s q

/-- Model of `redis_client.setnx(k, v)` / `SETNX k v`: a single atomic
check-and-set.  If a live entry exists the store is unchanged and `false`
is returned; otherwise the value is stored **with no expiry** and `true`
is returned. -/
def KVStore.setnx (s : KVStore) (k v : String) (t : Nat) : Bool × KVStore :=
  if s.keyExists k t then (false, s)
  else (true, fun q => if q = k then some ⟨v, none⟩ else s q)

/-- Model of `redis_client.expire(k, ttl)` / `EXPIRE k ttl`: set the expiry of the
entry at `k` (if present) to `ttl` seconds from now. -/
def KVStore.expire (s : KVStore) (k : String) (ttl t : Nat) : KVStore :=
  fun q => if q = k then (s q).map (fun e => ⟨e.value, some (t + ttl)⟩) else s q

/-- Model of `cache.delete(k)` / `DEL k`. -/
def KVStore.delete (s : KVStore) (k : String) : KVStore :=
  fun q => if q = k then none else s q

/-- Model of `hashlib.sha256(msg.encode()).hexdigest()`, written as an injective
computable placeholder for the hex digest (only determinism and injectivity
of the digest are used by the code under verification). -/
def sha256_hexdigest (msg : String) : String := "sha256:" ++ msg

/-- Key derivation at `views.py:70` — `hashlib.sha256(f'{user_id}'.encode()).hexdigest()`. -/
def idempotency_key (user_id : Nat) : String := sha256_hexdigest (toString user_id)

/-- Lock key at `views.py:176` / `tasks.py:33` — `f"user:{hashing}:lock"`. -/
def lock_key_of (hashing : String) : String := "user:" ++ hashing ++ ":lock"

/-- The JSON responses `start_task_idempotency` can produce. -/
inductive IdemResponse
  /-- HTTP 400 `'No user provided'` (`views.py:67`). -/
  | noUser
  /-- HTTP 200 `'Your task already processed'` (`views.py:73`). -/
  | alreadyProcessed
  /-- HTTP 202 `{'task_id': …, 'message': 'Your task is processing'}` (`views.py:81`). -/
  | processing (taskId : Nat)
  /-- HTTP 500 `{'error': …}` (`views.py:84`), reached when `apply_async` raises. -/
  | serverError
deriving Repr, DecidableEq

/-- Result of one `start_task_idempotency` request: the HTTP response, the
store afterwards, and whether a Celery job was enqueued. -/
structure IdemSubmit where
  response : IdemResponse
  store : KVStore
  enqueued : Bool

/-- Read step of the guard (`views.py:72`), `cache.get(idempotency_key)`
(the record's value `'processed'` is truthy, so the Python `if` tests
presence). -/
def start_task_idempotency_check (user_id : Nat) (t : Nat) (s : KVStore) : Bool :=
  (s.get (idempotency_key user_id) t).isSome

/-- Write step of the guard (`views.py:75`),
`cache.set(idempotency_key, 'processed', timeout=300)`. -/
def start_task_idempotency_mark (user_id : Nat) (t : Nat) (s : KVStore) : KVStore :=
  s.set (idempotency_key user_id) "processed" 300 t

/-- Model of `start_task_idempotency` (`views.py:59-84`).  `user_id = 0` models a
missing/falsy `user_id`.  `enqueueOk = false` models
`process_items_idempotency.apply_async` raising (executor backend
unavailable), in which case the `except` branch returns the 500 response —
note the `cache.set` at line 75 has already happened by then. -/
def start_task_idempotency (user_id taskId : Nat) (enqueueOk : Bool) (t : Nat)
    (s : KVStore) : IdemSubmit :=
  if user_id = 0 then ⟨.noUser, s, false⟩
  else if start_task_idempotency_check user_id t s then ⟨.alreadyProcessed, s, false⟩
  else
    let s1 := start_task_idempotency_mark user_id t s
    if enqueueOk then ⟨.processing taskId, s1, true⟩
    else ⟨.serverError, s1, false⟩

/-- Two concurrent `start_task_idempotency` requests for the same payload,
run in the interleaving: A's `cache.get`, B's `cache.get`, then A's
`cache.set` + enqueue, then B's `cache.set` + enqueue.  Each request's
atomic store primitives (`views.py:72` and `views.py:75`) execute in its
own program order; only their interleaving across the two requests varies.
Returns whether each request was admitted (enqueued a job), and the final
store. -/
def start_task_idempotency_race (user_id : Nat) (t : Nat) (s : KVStore) :
    Bool × Bool × KVStore :=
  let ca := start_task_idempotency_check user_id t s
  let cb := start_task_idempotency_check user_id t s
  let s1 := if ca then s else start_task_idempotency_mark user_id t s
  let s2 := if cb then s1 else start_task_idempotency_mark user_id t s1
  (!ca, !cb, s2)

/-- The JSON responses `start_task_lock` can produce. -/
inductive LockResponse
  /-- HTTP 400 `'No user provided'` (`views.py:172`). -/
  | noUser
  /-- HTTP 200 `'Task is already in progress'` (`views.py:181`). -/
  | alreadyInProgress
  /-- HTTP 202 `{'task_id': …, 'hashing': …, 'message': 'Your task is processing'}`
  (`views.py:189-193`). -/
  | processing (taskId : Nat) (hashing : String)
  /-- HTTP 500 `{'error': …}` (`views.py:196`), reached when `apply_async` raises. -/
  | serverError
deriving Repr, DecidableEq

/-- Result of one `start_task_lock` request. -/
structure LockSubmit where
  response : LockResponse
  store : KVStore
  enqueued : Bool

/-- Read step of the view's lock guard (`views.py:178`),
`redis_client.exists(lock_key)`. -/
def start_task_lock_check (hashing : String) (t : Nat) (s : KVStore) : Bool :=
  s.keyExists (lock_key_of hashing) t

/-- Write step of the view's lock guard (`views.py:183`),
`redis_client.setnx(lock_key, 'locked')`.  The source discards the boolean
returned by `setnx`, so only the updated store is kept; note no
`expire` is issued on this path. -/
def start_task_lock_mark (hashing : String) (t : Nat) (s : KVStore) : KVStore :=
  (s.setnx (lock_key_of hashing) "locked" t).2

/-- Model of `start_task_lock` (`views.py:164-196`).  `enqueueOk = false` models
`process_items_lock.apply_async` raising. -/
def start_task_lock (user_id taskId : Nat) (enqueueOk : Bool) (t : Nat)
    (s : KVStore) : LockSubmit :=
  if user_id = 0 then ⟨.noUser, s, false⟩
  else
    let hashing := sha256_hexdigest (toString user_id)
    if start_task_lock_check hashing t s then ⟨.alreadyInProgress, s, false⟩
    else
      let s1 := start_task_lock_mark hashing t s
      if enqueueOk then ⟨.processing taskId hashing, s1, true⟩
      else ⟨.serverError, s1, false⟩

/-- Two concurrent `start_task_lock` requests for the same user, run in the
interleaving: A's `exists`, B's `exists`, then A's `setnx` + enqueue, then
B's `setnx` + enqueue.  Each request's atomic store primitives
(`views.py:178` and `views.py:183`) execute in its own program order; only
their interleaving across the two requests varies.  Returns whether each
request enqueued a job, and the final store. -/
def start_task_lock_race (user_id : Nat) (t : Nat) (s : KVStore) :
    Bool × Bool × KVStore :=
  let hashing := sha256_hexdigest (toString user_id)
  let ca := start_task_lock_check hashing t s
  let cb := start_task_lock_check hashing t s
  let s1 := if ca then s else start_task_lock_mark hashing t s
  let s2 := if cb then s1 else start_task_lock_mark hashing t s1
  (!ca, !cb, s2)

/-- One `update_state(state='PROGRESS', meta={'current': …, 'total': …})`
call (`tasks.py:15`, `tasks.py:51`). -/
structure Progress where
  current : Nat
  total : Nat
deriving Repr, DecidableEq

/-- Constant from `tasks.py:28` — `LOCK_TIMEOUT = 600`. -/
def LOCK_TIMEOUT : Nat := 600

/-- The item-processing loop shared verbatim by both runners
(`tasks.py:12-15` and `tasks.py:48-51`):
`for i, item in enumerate(items): …; self.update_state(current=i+1, total=n)`.
`fuel` counts the remaining iterations and `i` is the current index.
`failAt = some f` models an unrecovered exception raised while processing
item `f` (before its progress update is emitted); the loop then stops and
reports that it raised.  Returns the emitted progress updates and whether
an exception was raised. -/
def run_items_go (n : Nat) (failAt : Option Nat) :
    Nat → Nat → List Progress × Bool
  | 0, _ => ([], false)
  | fuel + 1, i =>
    if failAt = some i then ([], true)
    else
      let r := run_items_go n failAt fuel (i + 1)
      (⟨i + 1, n⟩ :: r.1, r.2)

/-- The whole item-processing loop over `n` items. -/
def run_items (n : Nat) (failAt : Option Nat) : List Progress × Bool :=
  run_items_go n failAt n 0

/-- Terminal outcome of a runner, as recorded by the executor backend
(Celery): a value returned normally becomes the `SUCCESS` result, an
exception escaping the task body puts the job in `FAILURE`. -/
inductive RunnerOutcome
  /-- Normal return of `{'message': 'Task completed', 'total_items': n}`
  (`tasks.py:20`, `tasks.py:54`). -/
  | success (totalItems : Nat)
  /-- Early return of `{'message': 'Task is already in progress', 'status': 'ignored'}`
  (`tasks.py:41`). -/
  | ignored
  /-- An exception escaped the task body; the backend marks the job FAILURE. -/
  | failure
deriving Repr, DecidableEq

/-- Result of one runner execution: its terminal outcome, the progress
updates it emitted, and the store afterwards. -/
structure RunnerResult where
  outcome : RunnerOutcome
  updates : List Progress
  store : KVStore

/-- Model of `process_items_idempotency` (`tasks.py:9-20`): processes the items,
emitting one PROGRESS update per item, then **deletes** the idempotency
record (`cache.delete(idempotency_key)`, `tasks.py:19` — the
`cache.set(…, 'completed', …)` variant at line 18 is commented out) and
returns the completion result. -/
def process_items_idempotency (items : List Nat) (idemKey : String)
    (s : KVStore) : RunnerResult :=
  let n := items.length
  let r := run_items n none
  ⟨.success n, r.1, s.delete idemKey⟩

/-- Acquisition prefix of `process_items_lock` (`tasks.py:36-45`): the
atomic `setnx` guard (line 36) followed, on success, by
`expire(lock_key, LOCK_TIMEOUT)` (line 45, the first statement inside the
`try`, modelled as non-failing).  Returns whether the lock was acquired and
the store afterwards — i.e. the store left behind if the worker crashed
right after setting the expiry. -/
def lock_try_acquire (hashing : String) (t : Nat) (s : KVStore) :
    Bool × KVStore :=
  let lk := lock_key_of hashing
  let r := s.setnx lk "locked" t
  if r.1 then (true, r.2.expire lk LOCK_TIMEOUT t) else (false, r.2)

/-- Model of `process_items_lock` (`tasks.py:31-59`): tries to acquire the lock with
a single `setnx`; if the lock was already held it returns the `'ignored'`
result immediately (no work, no updates).  Otherwise it sets the lock's
TTL, runs the item loop inside `try`, and the `finally` block deletes the
lock on every exit — normal return and escaping exception alike.
`failAt = some f` models an unrecovered exception while processing item
`f`. -/
def process_items_lock (items : List Nat) (hashing : String)
    (failAt : Option Nat) (t : Nat) (s : KVStore) : RunnerResult :=
  let lk := lock_key_of hashing
  let acq := lock_try_acquire hashing t s
  if acq.1 then
    let r := run_items items.length failAt
    ⟨if r.2 then .failure else .success items.length, r.1, acq.2.delete lk⟩
  else
    ⟨.ignored, [], acq.2⟩

/-- The Celery task states `get_task_status_lock` can observe through
`AsyncResult(task_id).state`. -/
inductive JobState
  | pending | progress | success | failure | ignored
deriving Repr, DecidableEq

/-- The JSON payloads `get_task_status_lock` can produce. -/
inductive StatusPayload
  /-- HTTP 200 `{'status': 'in_progress', 'details': task.info}` (`views.py:266`). -/
  | inProgress (info : Option Progress)
  /-- HTTP 200 `{'status': 'completed', 'details': task.result}`
  (`views.py:270`, `views.py:281`). -/
  | completed (result : Option String)
  /-- HTTP 500 `{'status': 'failed', 'details': str(task.result)}` (`views.py:273`). -/
  | failed (details : String)
  /-- HTTP 200 `{'status': 'unknown', 'details': task.state}` (`views.py:276`). -/
  | unknownState (st : JobState)
  /-- HTTP 404 `{'status': 'not_found'}` (`views.py:283`). -/
  | notFound
deriving Repr, DecidableEq

/-- Model of `get_task_status_lock` (`views.py:253-283`).  `state`, `info` and
`result` stand for `task.state`, `task.info` and `task.result` of the
queried `AsyncResult`.  The second `redis_client.exists` at line 279 reads
the same store at the same instant as the first (line 261), so the branch
at lines 279-281 is reached exactly when the lock is absent and the state
is SUCCESS. -/
def get_task_status_lock (hashing : String) (state : JobState)
    (info : Option Progress) (result : Option String) (t : Nat)
    (s : KVStore) : StatusPayload :=
  let lk := lock_key_of hashing
  if s.keyExists lk t then
    match state with
    | .progress => .inProgress info
    | .success => .completed result
    | .failure => .failed (result.getD "None")
    | st => .unknownState st
  else if state = .success then .completed result
  else .notFound


/-! ## Store lemmas -/

/-- Reading the key just written by `set` yields the value while the
timeout has not elapsed. -/
theorem KVStore.get_set_self (s : KVStore) (k v : String) (timeout t t' : Nat)
    (h : t' < t + timeout) : (s.set k v timeout t).get k t' = some v := by
  simp [KVStore.get, KVStore.read, KVStore.set, Entry.alive, h]

/-- Reading the key just written by `set` yields nothing once the timeout
has elapsed. -/
theorem KVStore.get_set_self_expired (s : KVStore) (k v : String)
    (timeout t t' : Nat) (h : t + timeout ≤ t') :
    (s.set k v timeout t).get k t' = none := by
  simp [KVStore.get, KVStore.read, KVStore.set, Entry.alive]
  omega

/-- On a held key, `setnx` refuses and leaves the store untouched. -/
theorem KVStore.setnx_of_exists (s : KVStore) (k v : String) (t : Nat)
    (h : s.keyExists k t = true) : s.setnx k v t = (false, s) := by
  simp [KVStore.setnx, h]

/-- On a free key, `setnx` installs a never-expiring entry. -/
theorem KVStore.setnx_of_not_exists (s : KVStore) (k v : String) (t : Nat)
    (h : s.keyExists k t = false) :
    s.setnx k v t = (true, fun q => if q = k then some ⟨v, none⟩ else s q) := by
  simp [KVStore.setnx, h]

/-- A deleted key is gone. -/
theorem KVStore.delete_self (s : KVStore) (k : String) : s.delete k k = none := by
  simp [KVStore.delete]

/-- A deleted key no longer reads as present, at any time. -/
theorem KVStore.keyExists_delete_self (s : KVStore) (k : String) (t : Nat) :
    (s.delete k).keyExists k t = false := by
  simp [KVStore.keyExists, KVStore.read, KVStore.delete]

/-! ## Loop lemmas -/

/-- With no exception injected, the loop never reports a raise. -/
theorem run_items_go_noraise (n : Nat) :
    ∀ fuel i, (run_items_go n none fuel i).2 = false := by
  intro fuel
  induction fuel with
  | zero => intro i; simp [run_items_go]
  | succ fuel ih => intro i; simp [run_items_go, ih (i + 1)]

/-- An exception injected at an index the loop reaches makes it raise. -/
theorem run_items_go_raises (n f : Nat) :
    ∀ fuel i, i ≤ f → f < i + fuel → (run_items_go n (some f) fuel i).2 = true := by
  intro fuel
  induction fuel with
  | zero => intro i h1 h2; omega
  | succ fuel ih =>
    intro i h1 h2
    by_cases h : f = i
    · simp [run_items_go, h]
    · have : (some f = some i) = False := by simp; omega
      simp only [run_items_go, this, if_false]
      exact ih (i + 1) (by omega) (by omega)

/-- Shape of the emitted updates: starting at index `i`, the loop emits
`current` values `i+1, i+2, …` for some prefix length `m ≤ fuel` (all of
`fuel` when no exception is injected), each carrying the fixed `total`
`n`. -/
theorem run_items_go_updates (n : Nat) (failAt : Option Nat) :
    ∀ fuel i, ∃ m, m ≤ fuel
      ∧ (run_items_go n failAt fuel i).1.map Progress.current = List.range' (i + 1) m
      ∧ (run_items_go n failAt fuel i).1.map Progress.total = List.replicate m n
      ∧ (failAt = none → m = fuel) := by
  intro fuel
  induction fuel with
  | zero => intro i; exact ⟨0, by simp [run_items_go]⟩
  | succ fuel ih =>
    intro i
    by_cases h : failAt = some i
    · refine ⟨0, by omega, by simp [run_items_go, h], by simp [run_items_go, h], ?_⟩
      intro hnone; rw [hnone] at h; cases h
    · obtain ⟨m, hm, hc, ht, hfull⟩ := ih (i + 1)
      refine ⟨m + 1, by omega, ?_, ?_, ?_⟩
      · simp only [run_items_go, h, if_false, List.map_cons, hc, List.range'_succ]
      · simp only [run_items_go, h, if_false, List.map_cons, ht, List.replicate_succ]
      · intro hnone; have := hfull hnone; omega

/-! ## Claims -/

/-- **C1**: for every payload with a valid (non-zero) `user_id` whose
idempotency record is not yet present, submitting it twice within the
idempotency TTL (the second arrival at `t2` with `t1 ≤ t2 < t1 + 300`, and
no intervening store operation) yields exactly one ADMITTED and one
DUPLICATE: the first submission creates the idempotency record, enqueues a
job and returns its task id; the second returns the already-processed
duplicate response, enqueues no second job and leaves the store
unchanged. -/
theorem C1_double_submission_dedup (user_id taskId1 taskId2 t1 t2 : Nat)
    (s : KVStore) (hu : user_id ≠ 0)
    (habs : s.get (idempotency_key user_id) t1 = none)
    (h12 : t1 ≤ t2) (httl : t2 < t1 + 300) :
    (start_task_idempotency user_id taskId1 true t1 s).response
        = .processing taskId1
    ∧ (start_task_idempotency user_id taskId1 true t1 s).enqueued = true
    ∧ (start_task_idempotency user_id taskId1 true t1 s).store.get
        (idempotency_key user_id) t2 = some "processed"
    ∧ (start_task_idempotency user_id taskId2 true t2
        (start_task_idempotency user_id taskId1 true t1 s).store).response
        = .alreadyProcessed
    ∧ (start_task_idempotency user_id taskId2 true t2
        (start_task_idempotency user_id taskId1 true t1 s).store).enqueued = false
    ∧ (start_task_idempotency user_id taskId2 true t2
        (start_task_idempotency user_id taskId1 true t1 s).store).store
        = (start_task_idempotency user_id taskId1 true t1 s).store := by
  have hcheck1 : start_task_idempotency_check user_id t1 s = false := by
    simp [start_task_idempotency_check, habs]
  have hget : (start_task_idempotency_mark user_id t1 s).get
      (idempotency_key user_id) t2 = some "processed" :=
    KVStore.get_set_self s (idempotency_key user_id) "processed" 300 t1 t2 (by omega)
  have hcheck2 : ∀ s', s' = start_task_idempotency_mark user_id t1 s →
      start_task_idempotency_check user_id t2 s' = true := by
    intro s' hs'; subst hs'; simp [start_task_idempotency_check, hget]
  simp [start_task_idempotency, hu, hcheck1, hcheck2 _ rfl, hget]

/-- Witness for C1 at `user_id = 1`, first submission at `t = 0`, second at
`t = 10`. -/
theorem C1_double_submission_dedup_witness :
    (1 : Nat) ≠ 0
    ∧ KVStore.empty.get (idempotency_key 1) 0 = none
    ∧ (0 : Nat) ≤ 10
    ∧ (10 : Nat) < 0 + 300
    ∧ ((start_task_idempotency 1 5 true 0 KVStore.empty).response = .processing 5
    ∧ (start_task_idempotency 1 5 true 0 KVStore.empty).enqueued = true
    ∧ (start_task_idempotency 1 5 true 0 KVStore.empty).store.get
        (idempotency_key 1) 10 = some "processed"
    ∧ (start_task_idempotency 1 6 true 10
        (start_task_idempotency 1 5 true 0 KVStore.empty).store).response
        = .alreadyProcessed
    ∧ (start_task_idempotency 1 6 true 10
        (start_task_idempotency 1 5 true 0 KVStore.empty).store).enqueued = false
    ∧ (start_task_idempotency 1 6 true 10
        (start_task_idempotency 1 5 true 0 KVStore.empty).store).store
        = (start_task_idempotency 1 5 true 0 KVStore.empty).store) :=
  ⟨by decide, by decide, by decide, by decide,
    C1_double_submission_dedup 1 5 6 0 10 KVStore.empty (by decide) (by decide)
      (by decide) (by decide)⟩

/-- **C2** (counterexample): the claim says acquisition is a single atomic
check-and-set and never a separate existence-check followed by a separate
set; under that discipline, of two interleaved submissions for the same
resource at most one could be admitted.  But `start_task_lock` performs
`redis_client.exists` (`views.py:178`) and then a separate
`redis_client.setnx` whose result is discarded (`views.py:183`): in the
interleaving check-A, check-B, set-A, set-B on an initially free key, both
requests pass the check and both enqueue a job. -/
theorem C2_counterexample :
    (start_task_lock_race 1 0 KVStore.empty).1 = true
    ∧ (start_task_lock_race 1 0 KVStore.empty).2.1 = true := by decide

/-- **C2** (amended): at most one live lock per key can exist (the store
holds at most one entry per key), and a `try_acquire` of a held resource
returns ALREADY_HELD without enqueuing work and without touching the
store — both through the view (`'Task is already in progress'`) and through
the underlying atomic `setnx` primitive, which refuses and leaves the store
unchanged.  However, only the runner's guard is a single atomic
check-and-set; the view's acquisition is a separate existence-check
followed by a separate set, so two interleaved submissions can both
enqueue (see the counterexample). -/
theorem C2_already_held (user_id taskId t : Nat) (s : KVStore)
    (hu : user_id ≠ 0)
    (hheld : s.keyExists (lock_key_of (sha256_hexdigest (toString user_id))) t
        = true) :
    (start_task_lock user_id taskId true t s).response = .alreadyInProgress
    ∧ (start_task_lock user_id taskId true t s).enqueued = false
    ∧ (start_task_lock user_id taskId true t s).store = s
    ∧ s.setnx (lock_key_of (sha256_hexdigest (toString user_id))) "locked" t
        = (false, s) := by
  have hchk : start_task_lock_check (sha256_hexdigest (toString user_id)) t s
      = true := hheld
  refine ⟨?_, ?_, ?_, KVStore.setnx_of_exists s _ _ t hheld⟩
  all_goals simp [start_task_lock, hu, hchk]

/-- Witness for C2 at `user_id = 1` with the lock held in the store. -/
theorem C2_already_held_witness :
    (1 : Nat) ≠ 0
    ∧ (KVStore.empty.setnx
        (lock_key_of (sha256_hexdigest (toString 1))) "locked" 0).2.keyExists
        (lock_key_of (sha256_hexdigest (toString 1))) 5 = true
    ∧ (start_task_lock 1 7 true 5
        (KVStore.empty.setnx
          (lock_key_of (sha256_hexdigest (toString 1))) "locked" 0).2).response
        = .alreadyInProgress :=
  ⟨by decide, by decide,
    (C2_already_held 1 7 5
      (KVStore.empty.setnx
        (lock_key_of (sha256_hexdigest (toString 1))) "locked" 0).2
      (by decide) (by decide)).1⟩

/-- **C3**: when `process_items_lock` acquires the lock (the key was free),
the `finally` block releases it on every exit path: after the run the lock
key is absent at every future instant, whether the simulated work returned
normally (outcome SUCCESS) or raised while processing some item `f`
(outcome FAILURE). -/
theorem C3_failure_releases_lock (items : List Nat) (hashing : String)
    (failAt : Option Nat) (t : Nat) (s : KVStore)
    (hfree : s.keyExists (lock_key_of hashing) t = false) :
    (process_items_lock items hashing failAt t s).store (lock_key_of hashing)
        = none
    ∧ (∀ t', (process_items_lock items hashing failAt t s).store.keyExists
        (lock_key_of hashing) t' = false)
    ∧ (∀ f, failAt = some f → f < items.length →
        (process_items_lock items hashing failAt t s).outcome = .failure)
    ∧ (failAt = none →
        (process_items_lock items hashing failAt t s).outcome
          = .success items.length) := by
  have hacq : (lock_try_acquire hashing t s).1 = true := by
    simp [lock_try_acquire, KVStore.setnx_of_not_exists s _ _ t hfree]
  refine ⟨?_, ?_, ?_, ?_⟩
  · simp [process_items_lock, hacq, KVStore.delete_self]
  · intro t'; simp [process_items_lock, hacq, KVStore.keyExists_delete_self]
  · intro f hf hlt
    have : (run_items items.length failAt).2 = true := by
      rw [hf]; exact run_items_go_raises items.length f items.length 0
        (by omega) (by omega)
    simp [process_items_lock, hacq, this]
  · intro hnone
    have : (run_items items.length failAt).2 = false := by
      rw [hnone]; exact run_items_go_noraise items.length items.length 0
    simp [process_items_lock, hacq, this]

/-- Witness for C3: three items, exception at item 1, lock initially
free. -/
theorem C3_failure_releases_lock_witness :
    KVStore.empty.keyExists (lock_key_of "h") 0 = false
    ∧ (process_items_lock [10, 20, 30] "h" (some 1) 0 KVStore.empty).store
        (lock_key_of "h") = none
    ∧ (process_items_lock [10, 20, 30] "h" (some 1) 0 KVStore.empty).outcome
        = .failure :=
  ⟨by decide,
    (C3_failure_releases_lock [10, 20, 30] "h" (some 1) 0 KVStore.empty
      (by decide)).1,
    (C3_failure_releases_lock [10, 20, 30] "h" (some 1) 0 KVStore.empty
      (by decide)).2.2.1 1 rfl (by decide)⟩

/-- **C4** (counterexample): the idempotency guard is claimed to be a
single atomic set-if-not-exists, under which at most one of two
interleaved submissions of the same payload could be admitted.  The code
instead performs `cache.get` (`views.py:72`) and then a separate
`cache.set` (`views.py:75`): in the interleaving get-A, get-B, set-A,
set-B on an initially absent record, both submissions observe "absent" and
both are admitted (both enqueue a job). -/
theorem C4_counterexample :
    (start_task_idempotency_race 1 0 KVStore.empty).1 = true
    ∧ (start_task_idempotency_race 1 0 KVStore.empty).2.1 = true := by decide

/-- **C4** (amended): the guard checks and creates the record with two
separate cache operations, not one atomic primitive.  Run sequentially,
it has the claimed admit semantics: if the record is present it reports
duplicate with no side effects (store unchanged, nothing enqueued); if
absent it creates the record with the 300-second TTL and admits.  Under
concurrent interleaving the two-step version admits both submissions (see
the counterexample). -/
theorem C4_sequential_guard (user_id taskId t : Nat) (s : KVStore)
    (hu : user_id ≠ 0) :
    (s.get (idempotency_key user_id) t ≠ none →
      (start_task_idempotency user_id taskId true t s).response
          = .alreadyProcessed
      ∧ (start_task_idempotency user_id taskId true t s).store = s
      ∧ (start_task_idempotency user_id taskId true t s).enqueued = false)
    ∧ (s.get (idempotency_key user_id) t = none →
      (start_task_idempotency user_id taskId true t s).response
          = .processing taskId
      ∧ (start_task_idempotency user_id taskId true t s).store
          = s.set (idempotency_key user_id) "processed" 300 t
      ∧ (start_task_idempotency user_id taskId true t s).enqueued = true) := by
  constructor
  · intro hpres
    have hchk : start_task_idempotency_check user_id t s = true := by
      simp [start_task_idempotency_check, Option.isSome_iff_ne_none, hpres]
    simp [start_task_idempotency, hu, hchk]
  · intro habs
    have hchk : start_task_idempotency_check user_id t s = false := by
      simp [start_task_idempotency_check, habs]
    simp [start_task_idempotency, hu, hchk, start_task_idempotency_mark]

/-- Witness for C4 at `user_id = 1` on the empty store (record absent). -/
theorem C4_sequential_guard_witness :
    (1 : Nat) ≠ 0
    ∧ KVStore.empty.get (idempotency_key 1) 0 = none
    ∧ (start_task_idempotency 1 3 true 0 KVStore.empty).response
        = .processing 3 :=
  ⟨by decide, by decide,
    ((C4_sequential_guard 1 3 0 KVStore.empty (by decide)).2 (by decide)).1⟩

/-- **C5** (counterexample): the claim says a terminal job state always
wins over lock presence or absence, in particular FAILURE is reported
`failed` whether the lock is held or absent.  With the lock absent and the
job in FAILURE, `get_task_status_lock` falls through to `not_found`
(`views.py:283`) instead of `failed`. -/
theorem C5_counterexample :
    get_task_status_lock "h" .failure none (some "boom") 0 KVStore.empty
        = .notFound
    ∧ get_task_status_lock "h" .failure none (some "boom") 0 KVStore.empty
        ≠ .failed "boom" := by decide

/-- **C5** (amended): terminal-state precedence holds only for SUCCESS: a
SUCCESS job is reported `completed` with its result whether the lock is
held or absent.  A FAILURE job is reported `failed` with error detail only
while the lock is present; with the lock absent, every state other than
SUCCESS — including FAILURE — is reported `not_found`.  Lock absence with
no SUCCESS observed is never inferred success. -/
theorem C5_status_mapping (hashing : String) (state : JobState)
    (info : Option Progress) (result : Option String) (t : Nat)
    (s : KVStore) :
    (state = .success →
      get_task_status_lock hashing state info result t s = .completed result)
    ∧ (s.keyExists (lock_key_of hashing) t = true → state = .failure →
      get_task_status_lock hashing state info result t s
        = .failed (result.getD "None"))
    ∧ (s.keyExists (lock_key_of hashing) t = false → state ≠ .success →
      get_task_status_lock hashing state info result t s = .notFound) := by
  refine ⟨?_, ?_, ?_⟩
  · intro hsucc; subst hsucc
    by_cases h : s.keyExists (lock_key_of hashing) t <;>
      simp [get_task_status_lock, h]
  · intro hheld hfail; subst hfail
    simp [get_task_status_lock, hheld]
  · intro habs hns
    simp [get_task_status_lock, habs, hns]

/-- Witness for C5: a SUCCESS job with no lock present is reported
`completed`. -/
theorem C5_status_mapping_witness :
    (JobState.success = JobState.success)
    ∧ get_task_status_lock "h" .success none (some "r") 0 KVStore.empty
        = .completed (some "r") :=
  ⟨rfl, (C5_status_mapping "h" .success none (some "r") 0 KVStore.empty).1 rfl⟩

/-- **C6** (counterexample): the claim says every acquisition path sets a
TTL on the lock and the resource becomes acquirable once the TTL elapses.
The view's acquisition path (`views.py:183`) issues `setnx` with no
`expire`: submitting through `start_task_lock` on a free key enqueues a
job and leaves a lock entry with no expiry, and the key is still not
acquirable a billion seconds later — far beyond any TTL in the system. -/
theorem C6_counterexample :
    (start_task_lock 1 7 true 0 KVStore.empty).enqueued = true
    ∧ (start_task_lock 1 7 true 0 KVStore.empty).store
        (lock_key_of (sha256_hexdigest "1")) = some ⟨"locked", none⟩
    ∧ ((start_task_lock 1 7 true 0 KVStore.empty).store.setnx
        (lock_key_of (sha256_hexdigest "1")) "locked" 1000000000).1
        = false := by decide

/-- **C6** (amended): only the runner's acquisition path sets a TTL.
`process_items_lock` follows its atomic `setnx` with
`expire(lock_key, LOCK_TIMEOUT)`; after that, if the lock is never
explicitly released, competing `try_acquire` (`setnx`) calls fail at every
instant strictly before `t + 600` and succeed from `t + 600` on.  The
view's acquisition path sets no TTL, so a lock it acquires and never
releases never becomes acquirable again (see the counterexample). -/
theorem C6_runner_ttl (hashing : String) (t : Nat) (s : KVStore)
    (hfree : s.keyExists (lock_key_of hashing) t = false) :
    (lock_try_acquire hashing t s).1 = true
    ∧ (∀ t', t' < t + LOCK_TIMEOUT →
        ((lock_try_acquire hashing t s).2.setnx
          (lock_key_of hashing) "locked" t').1 = false)
    ∧ (∀ t', t + LOCK_TIMEOUT ≤ t' →
        ((lock_try_acquire hashing t s).2.setnx
          (lock_key_of hashing) "locked" t').1 = true) := by
  have hs2 : (lock_try_acquire hashing t s).2 (lock_key_of hashing)
      = some ⟨"locked", some (t + LOCK_TIMEOUT)⟩ := by
    simp [lock_try_acquire, KVStore.setnx_of_not_exists s _ _ t hfree,
      KVStore.expire]
  refine ⟨?_, ?_, ?_⟩
  · simp [lock_try_acquire, KVStore.setnx_of_not_exists s _ _ t hfree]
  · intro t' h'
    simp [KVStore.setnx, KVStore.keyExists, KVStore.read, hs2, Entry.alive, h']
  · intro t' h'
    have : ¬ t' < t + LOCK_TIMEOUT := by omega
    simp [KVStore.setnx, KVStore.keyExists, KVStore.read, hs2, Entry.alive, this]

/-- Witness for C6: runner acquisition at `t = 0` on the empty store; a
competing acquire fails at `t = 599` and succeeds at `t = 600`. -/
theorem C6_runner_ttl_witness :
    KVStore.empty.keyExists (lock_key_of "h") 0 = false
    ∧ ((lock_try_acquire "h" 0 KVStore.empty).2.setnx
        (lock_key_of "h") "locked" 599).1 = false
    ∧ ((lock_try_acquire "h" 0 KVStore.empty).2.setnx
        (lock_key_of "h") "locked" 600).1 = true :=
  ⟨by decide,
    (C6_runner_ttl "h" 0 KVStore.empty (by decide)).2.1 599 (by decide),
    (C6_runner_ttl "h" 0 KVStore.empty (by decide)).2.2 600 (by decide)⟩

/-- **C7** (counterexample): the claim says nothing deletes the
idempotency record before its 300-second TTL elapses, so a repeat
submission within the window is a DUPLICATE regardless of whether the job
has completed.  But `process_items_idempotency` ends with
`cache.delete(idempotency_key)` (`tasks.py:19`): submit at `t = 0`
(admitted), let the job complete, and a repeat submission at `t = 20` —
well inside the 300-second window — is admitted again and enqueues a
second job. -/
theorem C7_counterexample :
    (start_task_idempotency 1 11 true 0 KVStore.empty).response
        = .processing 11
    ∧ (start_task_idempotency 1 12 true 20
        (process_items_idempotency [10, 20, 30] (idempotency_key 1)
          (start_task_idempotency 1 11 true 0 KVStore.empty).store).store).response
        = .processing 12
    ∧ (start_task_idempotency 1 12 true 20
        (process_items_idempotency [10, 20, 30] (idempotency_key 1)
          (start_task_idempotency 1 11 true 0 KVStore.empty).store).store).enqueued
        = true
    ∧ (20 : Nat) < 300 := by decide

/-- **C7** (amended): the idempotency record is the dedup signal only
until the job completes or the TTL expires, whichever comes first: the
runner deletes the record on completion, after which a repeat submission
of the same payload is admitted again and enqueues a new job, even inside
the original 300-second window.  (Before completion, a repeat within the
window is a DUPLICATE — see C1.) -/
theorem C7_record_cleared_on_completion (user_id taskId t' : Nat)
    (items : List Nat) (s : KVStore) (hu : user_id ≠ 0) :
    (process_items_idempotency items (idempotency_key user_id) s).store
        (idempotency_key user_id) = none
    ∧ (start_task_idempotency user_id taskId true t'
        (process_items_idempotency items (idempotency_key user_id) s).store).response
        = .processing taskId
    ∧ (start_task_idempotency user_id taskId true t'
        (process_items_idempotency items (idempotency_key user_id) s).store).enqueued
        = true := by
  have hdel : (process_items_idempotency items (idempotency_key user_id) s).store
      = s.delete (idempotency_key user_id) := rfl
  have hchk : start_task_idempotency_check user_id t'
      (s.delete (idempotency_key user_id)) = false := by
    simp [start_task_idempotency_check, KVStore.get, KVStore.read,
      KVStore.delete]
  rw [hdel]
  refine ⟨KVStore.delete_self s _, ?_, ?_⟩ <;>
    simp [start_task_idempotency, hu, hchk]

/-- Witness for C7 at `user_id = 1`, resubmission at `t = 20`. -/
theorem C7_record_cleared_on_completion_witness :
    (1 : Nat) ≠ 0
    ∧ (start_task_idempotency 1 12 true 20
        (process_items_idempotency [10, 20, 30] (idempotency_key 1)
          KVStore.empty).store).response = .processing 12 :=
  ⟨by decide,
    (C7_record_cleared_on_completion 1 12 20 [10, 20, 30] KVStore.empty
      (by decide)).2.1⟩

/-- **C8** (counterexample): the claim says that when enqueueing raises, no
partial state has been committed, so an identical retry can succeed.  In
the code the `cache.set` (`views.py:75`) precedes `apply_async`
(`views.py:78`) and is not rolled back by the `except` branch: after a
failed enqueue at `t = 0` the record is left set, and an identical retry
at `t = 5` with the backend healthy returns DUPLICATE and enqueues
nothing. -/
theorem C8_counterexample :
    (start_task_idempotency 1 9 false 0 KVStore.empty).response = .serverError
    ∧ (start_task_idempotency 1 9 false 0 KVStore.empty).enqueued = false
    ∧ (start_task_idempotency 1 9 false 0 KVStore.empty).store.get
        (idempotency_key 1) 0 = some "processed"
    ∧ (start_task_idempotency 1 10 true 5
        (start_task_idempotency 1 9 false 0 KVStore.empty).store).response
        = .alreadyProcessed
    ∧ (start_task_idempotency 1 10 true 5
        (start_task_idempotency 1 9 false 0 KVStore.empty).store).enqueued
        = false := by decide

/-- **C8** (amended): when the executor backend is unavailable the failure
is surfaced synchronously (the 500 error response, nothing enqueued), but
partial state has been committed: the idempotency record was set before
the enqueue and is left behind, so an identical retry within the
300-second TTL returns DUPLICATE without enqueuing a job instead of
succeeding. -/
theorem C8_failed_enqueue_leaves_record (user_id taskId taskId2 t t2 : Nat)
    (s : KVStore) (hu : user_id ≠ 0)
    (habs : s.get (idempotency_key user_id) t = none)
    (h12 : t ≤ t2) (httl : t2 < t + 300) :
    (start_task_idempotency user_id taskId false t s).response = .serverError
    ∧ (start_task_idempotency user_id taskId false t s).enqueued = false
    ∧ (start_task_idempotency user_id taskId false t s).store.get
        (idempotency_key user_id) t2 = some "processed"
    ∧ (start_task_idempotency user_id taskId2 true t2
        (start_task_idempotency user_id taskId false t s).store).response
        = .alreadyProcessed
    ∧ (start_task_idempotency user_id taskId2 true t2
        (start_task_idempotency user_id taskId false t s).store).enqueued
        = false := by
  have hchk : start_task_idempotency_check user_id t s = false := by
    simp [start_task_idempotency_check, habs]
  have hget : (start_task_idempotency_mark user_id t s).get
      (idempotency_key user_id) t2 = some "processed" :=
    KVStore.get_set_self s (idempotency_key user_id) "processed" 300 t t2
      (by omega)
  have hchk2 : start_task_idempotency_check user_id t2
      (start_task_idempotency_mark user_id t s) = true := by
    simp [start_task_idempotency_check, hget]
  simp [start_task_idempotency, hu, hchk, hchk2, hget]

/-- Witness for C8 at `user_id = 1`: failed enqueue at `t = 0`, retry at
`t = 5`. -/
theorem C8_failed_enqueue_leaves_record_witness :
    (1 : Nat) ≠ 0
    ∧ KVStore.empty.get (idempotency_key 1) 0 = none
    ∧ (0 : Nat) ≤ 5
    ∧ (5 : Nat) < 0 + 300
    ∧ ((start_task_idempotency 1 9 false 0 KVStore.empty).response
        = .serverError
    ∧ (start_task_idempotency 1 9 false 0 KVStore.empty).enqueued = false
    ∧ (start_task_idempotency 1 9 false 0 KVStore.empty).store.get
        (idempotency_key 1) 5 = some "processed"
    ∧ (start_task_idempotency 1 10 true 5
        (start_task_idempotency 1 9 false 0 KVStore.empty).store).response
        = .alreadyProcessed
    ∧ (start_task_idempotency 1 10 true 5
        (start_task_idempotency 1 9 false 0 KVStore.empty).store).enqueued
        = false) :=
  ⟨by decide, by decide, by decide, by decide,
    C8_failed_enqueue_leaves_record 1 9 10 0 5 KVStore.empty (by decide)
      (by decide) (by decide) (by decide)⟩

/-- **C9**: the progress sequence a runner emits is monotone and complete:
`process_items_idempotency` over `n` items emits `current` values
`1, 2, …, n` in order with `total` fixed at `n` throughout, and
`process_items_lock` emits `current` values `1, 2, …, m` in order for some
prefix `m ≤ n` (all of `n` when it acquires the lock and no exception is
raised, as in the final conjunct), again with `total` fixed at `n`. -/
theorem C9_progress_monotone (items : List Nat) (k hashing : String)
    (failAt : Option Nat) (t : Nat) (s : KVStore) :
    ((process_items_idempotency items k s).updates.map Progress.current
        = List.range' 1 items.length
    ∧ (process_items_idempotency items k s).updates.map Progress.total
        = List.replicate items.length items.length)
    ∧ (∃ m, m ≤ items.length
        ∧ (process_items_lock items hashing failAt t s).updates.map
            Progress.current = List.range' 1 m
        ∧ (process_items_lock items hashing failAt t s).updates.map
            Progress.total = List.replicate m items.length)
    ∧ (process_items_lock items hashing none t KVStore.empty).updates.map
        Progress.current = List.range' 1 items.length := by
  obtain ⟨m0, hm0le, hc0, ht0, hfull0⟩ :=
    run_items_go_updates items.length none items.length 0
  have hm0 : m0 = items.length := hfull0 rfl
  subst hm0
  have hfree : KVStore.empty.keyExists (lock_key_of hashing) t = false := by
    simp [KVStore.keyExists, KVStore.read, KVStore.empty]
  have hacq0 : (lock_try_acquire hashing t KVStore.empty).1 = true := by
    simp [lock_try_acquire, KVStore.setnx_of_not_exists _ _ _ _ hfree]
  refine ⟨⟨hc0, ht0⟩, ?_, ?_⟩
  · by_cases hacq : (lock_try_acquire hashing t s).1
    · obtain ⟨m, hm, hc, ht, _⟩ :=
        run_items_go_updates items.length failAt items.length 0
      refine ⟨m, hm, ?_, ?_⟩
      · simpa [process_items_lock, hacq, run_items] using hc
      · simpa [process_items_lock, hacq, run_items] using ht
    · exact ⟨0, by omega, by simp [process_items_lock, hacq],
        by simp [process_items_lock, hacq]⟩
  · simpa [process_items_lock, hacq0, run_items] using hc0

/-- **C10**: when `process_items_lock` starts and the lock for its
resource key is already held, it returns the `'ignored'` result
immediately: no item is processed, no progress update is emitted, and the
store — the existing lock included, value, presence and TTL alike — is
left exactly as it was. -/
theorem C10_ignored_leaves_lock_untouched (items : List Nat)
    (hashing : String) (failAt : Option Nat) (t : Nat) (s : KVStore)
    (hheld : s.keyExists (lock_key_of hashing) t = true) :
    (process_items_lock items hashing failAt t s).outcome = .ignored
    ∧ (process_items_lock items hashing failAt t s).updates = []
    ∧ (process_items_lock items hashing failAt t s).store = s := by
  have hsetnx := KVStore.setnx_of_exists s (lock_key_of hashing) "locked" t hheld
  refine ⟨?_, ?_, ?_⟩ <;> simp [process_items_lock, lock_try_acquire, hsetnx]

/-- Witness for C10: three items against a store already holding the
lock. -/
theorem C10_ignored_leaves_lock_untouched_witness :
    (KVStore.empty.setnx (lock_key_of "h") "locked" 0).2.keyExists
        (lock_key_of "h") 5 = true
    ∧ (process_items_lock [10, 20, 30] "h" none 5
        (KVStore.empty.setnx (lock_key_of "h") "locked" 0).2).outcome
        = .ignored :=
  ⟨by decide,
    (C10_ignored_leaves_lock_untouched [10, 20, 30] "h" none 5
      (KVStore.empty.setnx (lock_key_of "h") "locked" 0).2 (by decide)).1⟩
